import Mathlib

/-!
Shallow embedding of `example_code.py` (embedded_vision_summit_2021): a toy
convolutional classifier and its deployment orchestration (float, native
quantized, NNAPI and ONNX export paths), together with the calibration data
adapter and the benchmarking helpers.

Python reference semantics are made explicit. Each orchestrator receives the
caller's model and returns the caller's model as it stands after the call,
the process-wide global state, and a trace of observable events (engine
selection, serializations, console benchmark lines). External framework
passes (layer fusion, observer insertion, quantized conversion) are
arbitrary parameters of the development, so theorems about the caller's
state hold for every possible behaviour of those black boxes.
-/

/-- A tensor, abstracted to its shape and an opaque seed standing for the
state of the random number generator at the moment it was drawn.  Each
`torch.rand` draw consumes one RNG state, so tensors drawn at different
moments carry different seeds. -/
structure Tensor where
  shape : List Nat
  seed : Nat
deriving DecidableEq

/-- Model of `torch.rand`: returns a fresh tensor of the requested shape and
advances the RNG state. -/
def torch_rand (shape : List Nat) (rng : Nat) : Tensor × Nat :=
  ({ shape := shape, seed := rng }, rng + 1)

/-- Prepend a length-1 batch dimension, as `Tensor.unsqueeze(0)` does. -/
def unsqueeze0 (t : Tensor) : Tensor :=
  { t with shape := 1 :: t.shape }

/-- A dataloader batch, modelled as the list of the individual sample frames
it stacks (iterating a batch tensor in Python yields exactly these frames,
each without the batch dimension). -/
abbrev Batch := List Tensor

/-- `ToyDataset` from the source: the constructor stores `self.len = 10`. -/
structure ToyDataset where
  len : Nat

/-- `ToyDataset.__init__`: sets `self.len = 10`. -/
def ToyDataset.init : ToyDataset := { len := 10 }

/-- `ToyDataset.__len__`: returns `self.len`. -/
def ToyDataset.lenFn (d : ToyDataset) : Nat := d.len

/-- `ToyDataset.__getitem__(self, item)`: the index is never compared against
`self.len` (no bounds check) and does not influence the result; the body is
just `return torch.rand((3, 224, 224))`, a fresh draw on every call. -/
def ToyDataset.getitem (d : ToyDataset) (item : Int) (rng : Nat) : Tensor × Nat :=
  torch_rand [3, 224, 224] rng

/-- Transcribed from `torchvision.models.mobilenetv2._make_divisible`, the
helper the source imports: round `v` to the nearest multiple of `divisor`
(floored at `min_value`, by default the divisor itself), then bump the
result up by one divisor if it fell more than 10% below `v`.  For integer
`v` and even `divisor` the Python `int(v + divisor / 2)` equals
`v + divisor / 2`, and the float test `new_v < 0.9 * v` is exactly
`10 * new_v < 9 * v`. -/
def make_divisible (v : Nat) (divisor : Nat) (min_value : Option Nat := none) : Nat :=
  let min_value := min_value.getD divisor
  let new_v := max min_value ((v + divisor / 2) / divisor * divisor)
  if 10 * new_v < 9 * v then new_v + divisor else new_v

/-- The fixed channel/stride schedule `block_params` from
`ToyClassifier.__init__`: (in_channels, out_channels, stride) per block. -/
def block_params : List (Nat × Nat × Nat) :=
  [(3, 18, 1), (18, 36, 2), (36, 74, 1), (74, 146, 2),
   (146, 290, 1), (290, 578, 2), (578, 1154, 1), (1154, 1154, 2)]

/-- The channel widths appearing in the schedule (the out-channel column). -/
def scheduleWidths : List Nat := block_params.map (fun e => e.2.1)

/-! ## Shape semantics of the network

Shapes are lists of dimension sizes, `[batch, channels, height, width]` for
the 4-d tensors flowing through the network.  Each layer becomes a partial
shape function returning `none` exactly when PyTorch would raise (channel
mismatch, zero stride, kernel larger than the padded input). -/

abbrev Shape := List Nat

/-- Shape of `nn.Conv2d(cin, cout, kernel_size=(k, k), stride, padding=(pad, pad))`.
Grouped convolutions do not change the shape arithmetic, so the `groups`
argument of the depthwise convolution is not a parameter here. -/
def conv2dShape (cin cout k stride pad : Nat) : Shape → Option Shape
  | [n, c, h, w] =>
    if c = cin ∧ 1 ≤ stride ∧ k ≤ h + 2 * pad ∧ k ≤ w + 2 * pad then
      some [n, cout, (h + 2 * pad - k) / stride + 1, (w + 2 * pad - k) / stride + 1]
    else none
  | _ => none

/-- Shape of `nn.BatchNorm2d(num_features)`: requires the channel count to
match and preserves the shape. -/
def batchNorm2dShape (num_features : Nat) : Shape → Option Shape
  | [n, c, h, w] => if c = num_features then some [n, c, h, w] else none
  | _ => none

/-- `nn.ReLU` preserves the shape of any tensor. -/
def reluShape (s : Shape) : Option Shape := some s

/-- Shape of `nn.AdaptiveAvgPool2d(1)`: collapses the spatial dimensions of a
non-empty feature map to 1x1. -/
def adaptiveAvgPool1Shape : Shape → Option Shape
  | [n, c, h, w] => if 1 ≤ h ∧ 1 ≤ w then some [n, c, 1, 1] else none
  | _ => none

/-- The quantization stubs (`QuantStub` / `DeQuantStub`) are identities on
shapes. -/
def quantStubShape (s : Shape) : Option Shape := some s

/-- Shape function of `ConvBNReLU`: 3x3 convolution (stride `stride`,
padding 1) from `in_channels` to `out_channels`, then batch norm and ReLU. -/
def ConvBNReLU.shapeFn (in_channels out_channels stride : Nat) (s : Shape) : Option Shape :=
  (((conv2dShape in_channels out_channels 3 stride 1 s).bind
    (batchNorm2dShape out_channels)).bind reluShape)

/-- Shape function of `OptimizedConvBNReLU`: depthwise 3x3 convolution
(`groups = in_channels`, stride `stride`, padding 1) keeping the channel
count, then the pointwise 1x1 convolution to `out_channels`, batch norm and
ReLU. -/
def OptimizedConvBNReLU.shapeFn (in_channels out_channels stride : Nat) (s : Shape) : Option Shape :=
  ((((conv2dShape in_channels in_channels 3 stride 1 s).bind
    (conv2dShape in_channels out_channels 1 1 0)).bind
    (batchNorm2dShape out_channels)).bind reluShape)

/-- The list of per-block shape functions built by `ToyClassifier.__init__`,
generalized over the schedule `bp` (the source instantiates `bp` with the
fixed `block_params`).  In the optimized branch the first block keeps the
literal input channel count 3 and every other channel width goes through
`_make_divisible(., 8)`, exactly as in the source. -/
def classifierBlockFns (optimized : Bool) (bp : List (Nat × Nat × Nat)) :
    List (Shape → Option Shape) :=
  if optimized then
    match bp with
    | [] => []
    | e :: rest =>
      OptimizedConvBNReLU.shapeFn 3 (make_divisible e.2.1 8) e.2.2 ::
        rest.map (fun f =>
          OptimizedConvBNReLU.shapeFn (make_divisible f.1 8) (make_divisible f.2.1 8) f.2.2)
  else
    bp.map (fun f => ConvBNReLU.shapeFn f.1 f.2.1 f.2.2)

/-- The out-channel count of the last schedule entry (`c` when the schedule
is empty).  The source hard-codes the literal 1154, which is exactly
`lastOut 3 block_params`. -/
def lastOut (c : Nat) : List (Nat × Nat × Nat) → Nat
  | [] => c
  | e :: rest => lastOut e.2.1 rest

/-- The `in_features` of the final 1x1 classifier convolution: 1154 for the
canonical variant, `_make_divisible(1154, 8)` for the optimized one (the
source hard-codes 1154 = the last schedule entry's out-channels). -/
def classifierInFeatures (optimized : Bool) (bp : List (Nat × Nat × Nat)) : Nat :=
  if optimized then make_divisible (lastOut 3 bp) 8 else lastOut 3 bp

/-- Shape semantics of `ToyClassifier.forward`: quant stub, the block chain,
adaptive average pooling to 1x1, the final 1x1 convolution to 1000 channels,
dequant stub.  There is no flatten or squeeze in the source forward. -/
def ToyClassifier.forwardShape (optimized : Bool) (bp : List (Nat × Nat × Nat))
    (x : Shape) : Option Shape :=
  ((((quantStubShape x).bind
      (fun s => (classifierBlockFns optimized bp).foldl (fun acc f => acc.bind f) (some s))).bind
    adaptiveAvgPool1Shape).bind
    (conv2dShape (classifierInFeatures optimized bp) 1000 1 1 0)).bind
    quantStubShape

/-- Validity of a channel schedule, as a boolean so concrete instances can be
checked by evaluation: non-empty, the first in-channel count is `c`, each
out-channel count chains into the next in-channel count, and every stride is
positive (PyTorch rejects stride 0 at construction time). -/
def chainedFromB (c : Nat) : List (Nat × Nat × Nat) → Bool
  | [] => true
  | e :: rest => (e.1 == c) && (1 ≤ e.2.2 : Bool) && chainedFromB e.2.1 rest

/-! ## The ONNX calibration data reader -/

/-- State of an `ONNXQuantizationDataReader`: the eagerly materialized
`self.data` list and the remaining suffix of `self.iter`. -/
structure ONNXQuantizationDataReader where
  data : List Tensor
  iterRest : List (String × Tensor)

/-- `ONNXQuantizationDataReader.__init__`: walks the dataloader batch by
batch, unrolls each batch into its individual sample frames, appends each
frame with a fresh length-1 batch dimension to `self.data` (the `.numpy()`
conversion preserves shape and value and is not modelled separately), and
finally builds `self.iter` over the named-input records. -/
def ONNXQuantizationDataReader.build (quant_loader : List Batch) (input_name : String) :
    ONNXQuantizationDataReader :=
  let data := quant_loader.foldl
    (fun acc inputs => acc ++ inputs.map (fun input_frame => unsqueeze0 input_frame)) []
  { data := data
    iterRest := data.map (fun d => (input_name, d)) }

/-- `ONNXQuantizationDataReader.get_next`: `next(self.iter, None)` — the
next record, or the `None` end marker once the iterator is exhausted. -/
def ONNXQuantizationDataReader.get_next (r : ONNXQuantizationDataReader) :
    Option (String × Tensor) × ONNXQuantizationDataReader :=
  match r.iterRest with
  | [] => (none, r)
  | x :: xs => (some x, { r with iterRest := xs })

/-- The record returned by the k-th `get_next` call (0-based), with the
reader state threaded through the earlier calls. -/
def ONNXQuantizationDataReader.nthCall (r : ONNXQuantizationDataReader) : Nat →
    Option (String × Tensor)
  | 0 => r.get_next.1
  | k + 1 => nthCall r.get_next.2 k

/-! ## Deployment orchestration

A `Model` is the caller-visible state of an `nn.Module`: its parameters (an
abstract list of values), its training/eval mode bit (`nn.Module` instances
are constructed with `training = True`; `.eval()` sets it to `False`
recursively), and the `qconfig` attribute the quantized paths attach.  The
heavy framework passes applied to the deep copy (layer fusion, observer
insertion/statistics, quantized conversion) are arbitrary `FrameworkOps`
parameters; scripting, tracing and serialization do not mutate the module
they are given and are recorded as events only. -/

structure Model where
  params : List Int
  training : Bool
  qconfig : Option String
deriving DecidableEq

/-- `nn.Module.eval()`: sets the training flag to `False` (recursively on
submodules) on the very object it is called on, and returns it. -/
def Model.evalMode (m : Model) : Model := { m with training := false }

/-- Process-wide mutable state: `torch.backends.quantized.engine`. -/
structure Globals where
  quantizedEngine : String
deriving DecidableEq

/-- The black-box framework passes the quantized paths apply to the deep
copy of the model: `model.fuse()` (via `torch.quantization.fuse_modules`),
`torch.quantization.prepare`, one observed forward pass per calibration
sample, and `torch.quantization.convert`. -/
structure FrameworkOps where
  fuseModules : Model → Model
  prepareObservers : Model → Model
  observeSample : Model → Batch → Model
  convertQuantized : Model → Model

/-- Observable events of a deployment run: engine selection, qconfig lookup,
fusion, observer insertion, one calibration forward per sample, quantized
conversion, NNAPI lowering, a file written by the serializer or the ONNX
exporter or the static quantizer, a console benchmark line naming the
artifact it reports (its latency/size numbers are wall-clock and file-system
values, abstracted away), and the per-variant parameter-count line printed
by `main`. -/
inductive Ev where
  | setEngine (backend : String)
  | getQConfig (backend : String)
  | fuseEv
  | prepareEv
  | forwardEv
  | convertEv
  | nnapiConvertEv
  | serialize (path : String)
  | onnxExport (path : String)
  | quantizeStaticEv (src dst : String)
  | benchPrint (path : String)
  | paramLine (name : String)
deriving DecidableEq

/-- The file paths written during a run: `torch.jit.save`/`model.save`
targets, the ONNX export target, and the output of `quantize_static`. -/
def artifactsOf (evs : List Ev) : List String :=
  evs.filterMap (fun e =>
    match e with
    | Ev.serialize p => some p
    | Ev.onnxExport p => some p
    | Ev.quantizeStaticEv _ dst => some dst
    | _ => none)

/-- The artifact paths named by console benchmark lines. -/
def printedFor (evs : List Ev) : List String :=
  evs.filterMap (fun e =>
    match e with
    | Ev.benchPrint p => some p
    | _ => none)

/-- Result of one deployment orchestrator call: the caller's model as it
stands after the call (Python passes the module by reference), the global
state, and the event trace. -/
structure DeployResult where
  model : Model
  globals : Globals
  events : List Ev

/-- `deploy_float` from the source.  Note there is no `deepcopy` here: the
orchestrator calls `model.eval()` directly on the caller's model, then
scripts/traces/serializes it three times and prints one benchmark line per
artifact. -/
def deploy_float (model : Model) (name : String) (g : Globals) : DeployResult :=
  let scripted_path := "./" ++ name ++ "_float_scripted.pt"
  let traced_path := "./" ++ name ++ "_float_traced.pt"
  let vulkan_path := "./" ++ name ++ "_float_vulkan_traced.pt"
  let model := model.evalMode
  { model := model
    globals := g
    events :=
      [Ev.serialize scripted_path, Ev.serialize traced_path, Ev.serialize vulkan_path,
       Ev.benchPrint scripted_path, Ev.benchPrint traced_path, Ev.benchPrint vulkan_path] }

/-- `deploy_quantized` from the source: deep-copies the model, sets the
process-wide engine, attaches the qconfig, builds the artifact path prefix
`./{name}_quant` (appending `_fused` after it when fusing), calibrates,
converts, serializes a scripted and a traced artifact and prints one
benchmark line for each.  The deep copy is modelled by rebinding the local
`m` while the caller's `model` is returned untouched. -/
def deploy_quantized (ops : FrameworkOps) (dataloader : List Batch) (model : Model)
    (fuse : Bool) (name : String) (backend : String) (g : Globals) : DeployResult :=
  let m := model
  let g := { g with quantizedEngine := backend }
  let m := { m with qconfig := some backend }
  let path := "./" ++ name ++ "_quant"
  let m := m.evalMode
  let m := if fuse then ops.fuseModules m else m
  let path := if fuse then path ++ "_fused" else path
  let mp := dataloader.foldl ops.observeSample (ops.prepareObservers m)
  let _mq := ops.convertQuantized mp
  let scripted_path := path ++ "_scripted.pt"
  let traced_path := path ++ "_traced.pt"
  { model := model
    globals := g
    events :=
      [Ev.setEngine backend, Ev.getQConfig backend] ++
      (if fuse then [Ev.fuseEv] else []) ++
      [Ev.prepareEv] ++ List.replicate dataloader.length Ev.forwardEv ++ [Ev.convertEv] ++
      [Ev.serialize scripted_path, Ev.serialize traced_path,
       Ev.benchPrint scripted_path, Ev.benchPrint traced_path] }

/-- `deploy_nnapi` from the source: same quantization pipeline on a deep
copy with prefix `./{name}_nnapi` (again `_fused` appended after it), then
strips the quant/dequant stubs, traces, lowers to NNAPI and saves the NNAPI
artifact and its float-interface wrapper.  No benchmark line is printed in
this orchestrator. -/
def deploy_nnapi (ops : FrameworkOps) (dataloader : List Batch) (model : Model)
    (fuse : Bool) (name : String) (backend : String) (g : Globals) : DeployResult :=
  let m := model
  let g := { g with quantizedEngine := backend }
  let m := { m with qconfig := some backend }
  let path := "./" ++ name ++ "_nnapi"
  let m := m.evalMode
  let m := if fuse then ops.fuseModules m else m
  let path := if fuse then path ++ "_fused" else path
  let mp := dataloader.foldl ops.observeSample (ops.prepareObservers m)
  let _mq := ops.convertQuantized mp
  let traced_path := path ++ "_traced.pt"
  let traced_float_path := path ++ "_float_interface_traced.pt"
  { model := model
    globals := g
    events :=
      [Ev.setEngine backend, Ev.getQConfig backend] ++
      (if fuse then [Ev.fuseEv] else []) ++
      [Ev.prepareEv] ++ List.replicate dataloader.length Ev.forwardEv ++ [Ev.convertEv] ++
      [Ev.nnapiConvertEv, Ev.serialize traced_path, Ev.serialize traced_float_path] }

/-- `deploy_onnx_quantized` from the source: deep-copies the model, fuses
optionally (prefix `./{name}`, then `_fused`), exports the float ONNX graph,
statically quantizes it through the calibration reader, and prints one
benchmark line per ONNX artifact.  It never touches the engine selector. -/
def deploy_onnx_quantized (ops : FrameworkOps) (dataloader : List Batch) (model : Model)
    (fuse : Bool) (name : String) (g : Globals) : DeployResult :=
  let m := model
  let path := "./" ++ name
  let m := m.evalMode
  let m := if fuse then ops.fuseModules m else m
  let path := if fuse then path ++ "_fused" else path
  let float_path := path ++ "_float.onnx"
  let quantized_path := path ++ "_quant.onnx"
  let _onnx_q_loader := ONNXQuantizationDataReader.build dataloader "input_image"
  { model := model
    globals := g
    events :=
      (if fuse then [Ev.fuseEv] else []) ++
      [Ev.onnxExport float_path, Ev.quantizeStaticEv float_path quantized_path,
       Ev.benchPrint float_path, Ev.benchPrint quantized_path] }


/-! ## Benchmark helpers

Wall-clock time is an oracle: the k-th call to `time()` during a benchmark
run returns `clock k`.  Random inputs consume RNG states exactly as
`torch_rand` does.  Each loop iteration draws the input first, reads the
clock, runs the forward pass, reads the clock again and accumulates the
difference, so the measured interval covers exactly the forward pass. -/

inductive BEv where
  | gen (t : Tensor)
  | timeRead (k : Nat)
  | forwardPass (t : Tensor)
deriving DecidableEq

/-- State threaded through the benchmark loop: RNG state, how many `time()`
calls have happened, the `avg_time` accumulator and the event trace. -/
structure BenchState where
  rng : Nat
  tick : Nat
  acc : ℚ
  trace : List BEv

/-- One iteration of the loop body shared by `benchmark_model` and
`benchmark_onnx_model`: draw a fresh `(1, 3, 224, 224)` input, read the
clock, run the model on it, read the clock, add the elapsed time. -/
def benchIter (clock : Nat → ℚ) (s : BenchState) : BenchState :=
  let (tensor, rng) := torch_rand [1, 3, 224, 224] s.rng
  let start := clock s.tick
  let elapsed := clock (s.tick + 1) - start
  { rng := rng
    tick := s.tick + 2
    acc := s.acc + elapsed
    trace := s.trace ++
      [BEv.gen tensor, BEv.timeRead s.tick, BEv.forwardPass tensor,
       BEv.timeRead (s.tick + 1)] }

/-- `for i in range(n)` over the benchmark loop body. -/
def benchRun (clock : Nat → ℚ) (s : BenchState) : Nat → BenchState
  | 0 => s
  | n + 1 => benchIter clock (benchRun clock s n)

/-- `benchmark_model(model, n_samples=100)` from the source: accumulate the
per-pass elapsed times over `n_samples` iterations, divide by `n_samples`
and return the mean multiplied by 1000 (milliseconds), together with the
event trace.  The model's outputs are discarded by the source, so the model
itself does not appear in the result. -/
def benchmark_model (clock : Nat → ℚ) (rng : Nat) (n_samples : Nat := 100) :
    ℚ × List BEv :=
  let s := benchRun clock { rng := rng, tick := 0, acc := 0, trace := [] } n_samples
  ((s.acc / n_samples) * 1000, s.trace)

/-- `benchmark_onnx_model(model, n_samples=100)` from the source: identical
loop, with the input converted by `.numpy()` (shape- and value-preserving,
not modelled separately) and fed to `model.run(None, ...)`. -/
def benchmark_onnx_model (clock : Nat → ℚ) (rng : Nat) (n_samples : Nat := 100) :
    ℚ × List BEv :=
  let s := benchRun clock { rng := rng, tick := 0, acc := 0, trace := [] } n_samples
  ((s.acc / n_samples) * 1000, s.trace)

/-! ## main -/

/-- `training_loop()` from the source: the body is `pass`; it receives
nothing and changes nothing, so as a map on the process state it is the
identity. -/
def training_loop (g : Globals) : Globals := g

/-- `DataLoader(ToyDataset())` as iterated by the calibration loops: ten
batches (the default batch size is 1), each containing the single frame
drawn by `__getitem__` for that index. -/
def dataLoaderBatches (d : ToyDataset) (rng : Nat) : List Batch :=
  (List.range d.len).map (fun i => [(d.getitem (Int.ofNat i) (rng + i)).1])

/-- Result of one iteration of the loop in `main`: the local `model`
variable at the end, the globals, the console/file event trace, and the
parameters of the model at the moment each of the six deployment calls
received it (in call order). -/
structure VariantResult where
  model : Model
  globals : Globals
  events : List Ev
  paramsAtDeploy : List (List Int)

/-- One iteration of the loop in `main`: construct the variant's model
(`initModel optimized` stands for `ToyClassifier(optimized=optimized)` with
its freshly initialized random weights), print its parameter count, build
dataset and dataloader, call `training_loop()`, then run the six deployment
calls in source order — `deploy_float`, `deploy_onnx_quantized` without and
with fusing, `deploy_quantized` without and with fusing on the 'fbgemm'
backend, and `deploy_nnapi` with fusing on its default 'qnnpack' backend. -/
def mainVariant (ops : FrameworkOps) (initModel : Bool → Model) (rng : Nat)
    (optimized : Bool) (name : String) (g : Globals) : VariantResult :=
  let model := initModel optimized
  let evs := [Ev.paramLine name]
  let dataset := ToyDataset.init
  let dataloader := dataLoaderBatches dataset rng
  let g := training_loop g
  let p1 := model.params
  let r1 := deploy_float model name g
  let model := r1.model
  let p2 := model.params
  let r2 := deploy_onnx_quantized ops dataloader model false name r1.globals
  let model := r2.model
  let p3 := model.params
  let r3 := deploy_onnx_quantized ops dataloader model true name r2.globals
  let model := r3.model
  let p4 := model.params
  let r4 := deploy_quantized ops dataloader model false name "fbgemm" r3.globals
  let model := r4.model
  let p5 := model.params
  let r5 := deploy_quantized ops dataloader model true name "fbgemm" r4.globals
  let model := r5.model
  let p6 := model.params
  let r6 := deploy_nnapi ops dataloader model true name "qnnpack" r5.globals
  let model := r6.model
  { model := model
    globals := r6.globals
    events := evs ++ r1.events ++ r2.events ++ r3.events ++ r4.events ++ r5.events ++ r6.events
    paramsAtDeploy := [p1, p2, p3, p4, p5, p6] }

/-- `main()` from the source: the loop body for `(False, 'classifier')`
followed by `(True, 'optimized_classifier')`, threading the process-wide
globals (the RNG seed threading between iterations is abstract, and
irrelevant to every stated property). -/
def mainRun (ops : FrameworkOps) (initModel : Bool → Model) (rng : Nat) (g : Globals) :
    List Ev × Globals :=
  let v1 := mainVariant ops initModel rng false "classifier" g
  let v2 := mainVariant ops initModel rng true "optimized_classifier" v1.globals
  (v1.events ++ v2.events, v2.globals)

/-! ## Sequences of orchestrator calls -/

/-- One orchestrator invocation with its arguments, for reasoning about
arbitrary call sequences on a shared base model and shared globals. -/
inductive Call where
  | callFloat (name : String)
  | callOnnx (dataloader : List Batch) (fuse : Bool) (name : String)
  | callQuant (dataloader : List Batch) (fuse : Bool) (name : String) (backend : String)
  | callNnapi (dataloader : List Batch) (fuse : Bool) (name : String) (backend : String)

/-- Run one orchestrator call on the caller's model and the globals. -/
def runCall (ops : FrameworkOps) (s : Model × Globals) : Call → Model × Globals
  | Call.callFloat name =>
    let r := deploy_float s.1 name s.2; (r.model, r.globals)
  | Call.callOnnx dl fuse name =>
    let r := deploy_onnx_quantized ops dl s.1 fuse name s.2; (r.model, r.globals)
  | Call.callQuant dl fuse name backend =>
    let r := deploy_quantized ops dl s.1 fuse name backend s.2; (r.model, r.globals)
  | Call.callNnapi dl fuse name backend =>
    let r := deploy_nnapi ops dl s.1 fuse name backend s.2; (r.model, r.globals)

/-- Run a sequence of orchestrator calls left to right. -/
def runCalls (ops : FrameworkOps) (s : Model × Globals) (cs : List Call) : Model × Globals :=
  cs.foldl (runCall ops) s

/-- The backend argument of a call, when the call is one of the two
backend-setting orchestrators. -/
def callBackend : Call → Option String
  | Call.callQuant _ _ _ backend => some backend
  | Call.callNnapi _ _ _ backend => some backend
  | _ => none

/-- The engine selector left behind by a call sequence started with selector
`e`: the backend of the most recent backend-setting call, else `e`. -/
def lastEngine (e : String) (cs : List Call) : String :=
  cs.foldl (fun acc c => (callBackend c).getD acc) e

/-! ## Concrete instances and path pattern lists -/

/-- A concrete base model: one parameter, freshly constructed (so in
training mode, as every `nn.Module` is), no qconfig attached. -/
def m0 : Model := { params := [0], training := true, qconfig := none }

/-- A concrete initial global state. -/
def g0 : Globals := { quantizedEngine := "fbgemm" }

/-- A concrete instantiation of the black-box framework passes (the identity
on the model state); used only to evaluate closed instances. -/
def trivialOps : FrameworkOps :=
  { fuseModules := id
    prepareObservers := id
    observeSample := fun m _ => m
    convertQuantized := id }

/-- All artifact paths written by running the four deployment orchestrators
with run name `name` and fuse flag `fuse` (the fuse flag only affects the
orchestrators that take it). -/
def allDeployArtifacts (ops : FrameworkOps) (dl : List Batch) (m : Model)
    (backend : String) (g : Globals) (name : String) (fuse : Bool) : List String :=
  artifactsOf (deploy_float m name g).events ++
  artifactsOf (deploy_quantized ops dl m fuse name backend g).events ++
  artifactsOf (deploy_nnapi ops dl m fuse name backend g).events ++
  artifactsOf (deploy_onnx_quantized ops dl m fuse name g).events

/-- Modelled from the spec's words: the artifact path patterns exactly as
the spec's Outputs section lists them, with the optional `_fused` segment in
the positions shown there (before `_quant` / `_nnapi`), resolved against the
current directory. -/
def specListedArtifacts (name : String) (fuse : Bool) : List String :=
  let fsd := if fuse then "_fused" else ""
  ["./" ++ name ++ "_float_scripted.pt",
   "./" ++ name ++ "_float_traced.pt",
   "./" ++ name ++ "_float_vulkan_traced.pt",
   "./" ++ name ++ fsd ++ "_quant_scripted.pt",
   "./" ++ name ++ fsd ++ "_quant_traced.pt",
   "./" ++ name ++ fsd ++ "_nnapi_traced.pt",
   "./" ++ name ++ fsd ++ "_nnapi_float_interface_traced.pt",
   "./" ++ name ++ fsd ++ "_float.onnx",
   "./" ++ name ++ fsd ++ "_quant.onnx"]

/-- The artifact path patterns the code actually produces: the optional
`_fused` segment comes after the `_quant` / `_nnapi` segment (it is appended
to the already-built path prefix), and where the spec shows it for the ONNX
pair. -/
def codePatternArtifacts (name : String) (fuse : Bool) : List String :=
  let fsd := if fuse then "_fused" else ""
  ["./" ++ name ++ "_float_scripted.pt",
   "./" ++ name ++ "_float_traced.pt",
   "./" ++ name ++ "_float_vulkan_traced.pt",
   "./" ++ name ++ "_quant" ++ fsd ++ "_scripted.pt",
   "./" ++ name ++ "_quant" ++ fsd ++ "_traced.pt",
   "./" ++ name ++ "_nnapi" ++ fsd ++ "_traced.pt",
   "./" ++ name ++ "_nnapi" ++ fsd ++ "_float_interface_traced.pt",
   "./" ++ name ++ fsd ++ "_float.onnx",
   "./" ++ name ++ fsd ++ "_quant.onnx"]

/-- Recognizer for engine-selection events. -/
def isSetEngine : Ev → Bool
  | Ev.setEngine _ => true
  | _ => false

/-! ## Helper lemmas -/

theorem strAppendNe (s : String) {t u : String} (h : t ≠ u) : s ++ t ≠ s ++ u := by
  intro he
  apply h
  have hd := congrArg String.data he
  simp [String.data_append] at hd
  exact String.ext hd

theorem artifactsOf_append (a b : List Ev) :
    artifactsOf (a ++ b) = artifactsOf a ++ artifactsOf b := by
  simp [artifactsOf]

theorem printedFor_append (a b : List Ev) :
    printedFor (a ++ b) = printedFor a ++ printedFor b := by
  simp [printedFor]

theorem artifactsOf_replicate_forward (n : Nat) :
    artifactsOf (List.replicate n Ev.forwardEv) = [] := by
  induction n with
  | zero => rfl
  | succ n ih => simp [artifactsOf, List.replicate_succ, ih]

theorem printedFor_replicate_forward (n : Nat) :
    printedFor (List.replicate n Ev.forwardEv) = [] := by
  induction n with
  | zero => rfl
  | succ n ih => simp [printedFor, List.replicate_succ, ih]

theorem runCall_params (ops : FrameworkOps) (s : Model × Globals) (c : Call) :
    (runCall ops s c).1.params = s.1.params := by
  cases c <;> rfl

theorem runCalls_params (ops : FrameworkOps) (cs : List Call) :
    ∀ s : Model × Globals, (runCalls ops s cs).1.params = s.1.params := by
  induction cs with
  | nil => intro s; rfl
  | cons c cs ih =>
    intro s
    calc (runCalls ops (runCall ops s c) cs).1.params
        = (runCall ops s c).1.params := ih (runCall ops s c)
      _ = s.1.params := runCall_params ops s c

theorem runCall_engine (ops : FrameworkOps) (s : Model × Globals) (c : Call) :
    (runCall ops s c).2.quantizedEngine = (callBackend c).getD s.2.quantizedEngine := by
  cases c <;> rfl

theorem runCalls_engine (ops : FrameworkOps) (cs : List Call) :
    ∀ s : Model × Globals,
      (runCalls ops s cs).2.quantizedEngine = lastEngine s.2.quantizedEngine cs := by
  induction cs with
  | nil => intro s; rfl
  | cons c cs ih =>
    intro s
    have h1 : runCalls ops s (c :: cs) = runCalls ops (runCall ops s c) cs := rfl
    rw [h1, ih (runCall ops s c), runCall_engine ops s c]
    rfl

/-! ## Claims -/

/-- Claim C1 (corrected part): the three orchestrators that deep-copy
(`deploy_quantized`, `deploy_nnapi`, `deploy_onnx_quantized`) leave the
caller's model entirely unchanged — parameters, training/eval mode bit and
qconfig — for every possible behaviour of the black-box framework passes;
`deploy_float`, which does not deep-copy, leaves the parameters unchanged
but sets the caller's model to eval mode; and any sequence of orchestrator
calls leaves the caller's parameters unchanged. -/
theorem c1_deploy_isolation :
    ∀ (ops : FrameworkOps) (dl : List Batch) (m : Model) (fuse : Bool)
      (name backend : String) (g : Globals),
      (deploy_quantized ops dl m fuse name backend g).model = m ∧
      (deploy_nnapi ops dl m fuse name backend g).model = m ∧
      (deploy_onnx_quantized ops dl m fuse name g).model = m ∧
      (deploy_float m name g).model = { m with training := false } ∧
      (∀ (cs : List Call) (s : Model × Globals), (runCalls ops s cs).1.params = s.1.params) := by
  intro ops dl m fuse name backend g
  exact ⟨rfl, rfl, rfl, rfl, fun cs s => runCalls_params ops cs s⟩

/-- Claim C1 counterexample: `deploy_float` performs no deep copy and calls
`model.eval()` on the caller's model, so a freshly constructed model (in
training mode) does not keep its training/eval mode bit across the call. -/
theorem c1_counterexample :
    (deploy_float m0 "classifier" g0).model.training ≠ m0.training := by decide

/-- Claim C2 (corrected): in the factored-block variant every schedule width
`w` is replaced by `_make_divisible(w, 8)`, which is a multiple of 8, at
least 8, and never more than 10% below `w` — but it rounds to the nearest
multiple of 8 (with the 10% floor), not always up; 18 still maps to 24. -/
theorem c2_make_divisible_rounding :
    (∀ w ∈ scheduleWidths,
      make_divisible w 8 % 8 = 0 ∧ 8 ≤ make_divisible w 8 ∧
        9 * w ≤ 10 * make_divisible w 8) ∧
    make_divisible 18 8 = 24 := by decide

/-- Claim C2 witness: the amended statement evaluated at the schedule width
74 (whose rounded value is 72, a multiple of 8 within 10% of 74). -/
theorem c2_make_divisible_rounding_witness :
    74 ∈ scheduleWidths ∧
      (make_divisible 74 8 % 8 = 0 ∧ 8 ≤ make_divisible 74 8 ∧
        9 * 74 ≤ 10 * make_divisible 74 8) :=
  ⟨by decide, c2_make_divisible_rounding.1 74 (by decide)⟩

/-- Claim C2 counterexample: 74 is a schedule width, and its rounded value
`_make_divisible(74, 8) = 72` is strictly below 74, refuting "greater than
or equal to w (rounded up, never down)". -/
theorem c2_counterexample :
    74 ∈ scheduleWidths ∧ ¬ 74 ≤ make_divisible 74 8 := by decide

/-- Claim C8 (confirmed): both backend-dependent orchestrators set the
process-wide `torch.backends.quantized.engine` to their backend argument as
their very first observable action (before the qconfig lookup, observer
insertion, calibration and conversion), set it exactly once, never restore
it, and leave it equal to their backend argument; consequently, after any
sequence of orchestrator calls the selector equals the backend argument of
the most recent backend-setting call (or its initial value if there was
none). -/
theorem c8_engine_selector :
    ∀ (ops : FrameworkOps) (dl : List Batch) (m : Model) (fuse : Bool)
      (name backend : String) (g : Globals),
      ((deploy_quantized ops dl m fuse name backend g).globals.quantizedEngine = backend ∧
       (deploy_quantized ops dl m fuse name backend g).events.head? =
         some (Ev.setEngine backend) ∧
       (deploy_quantized ops dl m fuse name backend g).events.filter isSetEngine =
         [Ev.setEngine backend]) ∧
      ((deploy_nnapi ops dl m fuse name backend g).globals.quantizedEngine = backend ∧
       (deploy_nnapi ops dl m fuse name backend g).events.head? =
         some (Ev.setEngine backend) ∧
       (deploy_nnapi ops dl m fuse name backend g).events.filter isSetEngine =
         [Ev.setEngine backend]) ∧
      ((deploy_float m name g).globals = g ∧
       (deploy_onnx_quantized ops dl m fuse name g).globals = g) ∧
      (∀ (cs : List Call) (s : Model × Globals),
        (runCalls ops s cs).2.quantizedEngine = lastEngine s.2.quantizedEngine cs) := by
  intro ops dl m fuse name backend g
  refine ⟨⟨rfl, rfl, ?_⟩, ⟨rfl, rfl, ?_⟩, ⟨rfl, rfl⟩, fun cs s => runCalls_engine ops cs s⟩ <;>
    cases fuse <;>
      simp [deploy_quantized, deploy_nnapi, isSetEngine, List.filter_append,
        List.filter_replicate]

/-- Claim C9 (confirmed): `training_loop` is the identity on the process
state, and the model handed to each of the six deployment calls in a `main`
loop iteration still carries the parameters it was constructed with — the
models are never trained. -/
theorem c9_never_trained :
    (∀ g : Globals, training_loop g = g) ∧
    (∀ (ops : FrameworkOps) (initModel : Bool → Model) (rng : Nat) (optimized : Bool)
      (name : String) (g : Globals),
      (mainVariant ops initModel rng optimized name g).paramsAtDeploy =
        List.replicate 6 (initModel optimized).params) := by
  exact ⟨fun g => rfl, fun ops initModel rng optimized name g => rfl⟩

/-- Claim C10 (confirmed): `ToyDataset.__getitem__` succeeds on every
integer index (negative or beyond the declared length 10 alike — there is no
bounds check), always returns a tensor of shape (3, 224, 224), its result
does not depend on the index, and two successive calls with the same index
return different tensors (each call draws fresh randomness). -/
theorem c10_getitem_unchecked :
    ToyDataset.init.len = 10 ∧ ToyDataset.init.lenFn = 10 ∧
    (∀ (d : ToyDataset) (item : Int) (rng : Nat),
      (d.getitem item rng).1.shape = [3, 224, 224] ∧
      (∀ j : Int, d.getitem item rng = d.getitem j rng)) ∧
    (∀ (d : ToyDataset) (item : Int) (rng : Nat),
      (d.getitem item rng).1 ≠ (d.getitem item (d.getitem item rng).2).1) := by
  refine ⟨rfl, rfl, fun d item rng => ⟨rfl, fun j => rfl⟩, fun d item rng => ?_⟩
  simp [ToyDataset.getitem, torch_rand]

/-- Claim C3 (corrected): for every run name and fuse flag, the artifact
paths produced by the four deployment orchestrators are exactly the spec's
listed patterns except that the optional `_fused` segment appears after the
`_quant` / `_nnapi` segment, not before it (the code appends `_fused` to the
already-built `./{name}_quant` / `./{name}_nnapi` prefix); the ONNX pair
matches the spec's positions. -/
theorem c3_artifact_paths :
    ∀ (ops : FrameworkOps) (dl : List Batch) (m : Model) (backend : String)
      (g : Globals) (name : String) (fuse : Bool),
      allDeployArtifacts ops dl m backend g name fuse = codePatternArtifacts name fuse := by
  intro ops dl m backend g name fuse
  cases fuse <;>
    simp [allDeployArtifacts, codePatternArtifacts, deploy_float, deploy_quantized,
      deploy_nnapi, deploy_onnx_quantized, artifactsOf_append, artifactsOf,
      artifactsOf_replicate_forward, String.append_assoc]

/-- Claim C3 counterexample: with fusing enabled the quantized scripted
artifact is written to `./classifier_quant_fused_scripted.pt`, which is not
among the spec's listed patterns (the spec shows
`classifier_fused_quant_scripted.pt`). -/
theorem c3_counterexample :
    "./classifier_quant_fused_scripted.pt" ∈
        allDeployArtifacts trivialOps [] m0 "qnnpack" g0 "classifier" true ∧
      "./classifier_quant_fused_scripted.pt" ∉ specListedArtifacts "classifier" true := by
  decide

/-- Claim C4 (corrected): `deploy_float`, `deploy_quantized` and
`deploy_onnx_quantized` print exactly one benchmark line (latency and size)
per serialized artifact — the list of reported paths equals the list of
distinct artifact paths — and `main` prints exactly one parameter-count line
per model variant; but `deploy_nnapi` serializes its two artifacts without
printing any benchmark line. -/
theorem c4_console_lines :
    (∀ (m : Model) (name : String) (g : Globals),
      printedFor (deploy_float m name g).events = artifactsOf (deploy_float m name g).events ∧
      (artifactsOf (deploy_float m name g).events).Nodup) ∧
    (∀ (ops : FrameworkOps) (dl : List Batch) (m : Model) (fuse : Bool)
      (name backend : String) (g : Globals),
      printedFor (deploy_quantized ops dl m fuse name backend g).events =
        artifactsOf (deploy_quantized ops dl m fuse name backend g).events ∧
      (artifactsOf (deploy_quantized ops dl m fuse name backend g).events).Nodup) ∧
    (∀ (ops : FrameworkOps) (dl : List Batch) (m : Model) (fuse : Bool)
      (name : String) (g : Globals),
      printedFor (deploy_onnx_quantized ops dl m fuse name g).events =
        artifactsOf (deploy_onnx_quantized ops dl m fuse name g).events ∧
      (artifactsOf (deploy_onnx_quantized ops dl m fuse name g).events).Nodup) ∧
    (∀ (ops : FrameworkOps) (dl : List Batch) (m : Model) (fuse : Bool)
      (name backend : String) (g : Globals),
      (artifactsOf (deploy_nnapi ops dl m fuse name backend g).events).length = 2 ∧
      printedFor (deploy_nnapi ops dl m fuse name backend g).events = []) ∧
    (∀ (ops : FrameworkOps) (initModel : Bool → Model) (rng : Nat) (g : Globals),
      (mainRun ops initModel rng g).1.count (Ev.paramLine "classifier") = 1 ∧
      (mainRun ops initModel rng g).1.count (Ev.paramLine "optimized_classifier") = 1) := by
  refine ⟨fun m name g => ⟨rfl, ?_⟩, fun ops dl m fuse name backend g => ?_,
    fun ops dl m fuse name g => ?_, fun ops dl m fuse name backend g => ?_,
    fun ops initModel rng g => ?_⟩
  · simp [deploy_float, artifactsOf, List.nodup_cons, List.mem_cons, String.append_assoc]
    refine ⟨⟨?_, ?_⟩, ?_⟩ <;> exact strAppendNe _ (strAppendNe _ (by decide))
  · cases fuse <;>
      simp [deploy_quantized, artifactsOf_append, printedFor_append, artifactsOf, printedFor,
        artifactsOf_replicate_forward, printedFor_replicate_forward, List.nodup_cons,
        String.append_assoc] <;>
      exact strAppendNe _ (strAppendNe _ (by decide))
  · cases fuse <;>
      simp [deploy_onnx_quantized, artifactsOf_append, printedFor_append, artifactsOf,
        printedFor, List.nodup_cons, String.append_assoc] <;>
      exact strAppendNe _ (strAppendNe _ (by decide))
  · cases fuse <;>
      simp [deploy_nnapi, artifactsOf_append, printedFor_append, artifactsOf, printedFor,
        artifactsOf_replicate_forward, printedFor_replicate_forward]
  · have h : (mainRun ops initModel rng g).1 = (mainRun trivialOps (fun _ => m0) 0 g0).1 := rfl
    rw [h]
    constructor <;> decide

/-- Claim C4 counterexample: `deploy_nnapi` saves the NNAPI artifact
`./classifier_nnapi_fused_traced.pt` but prints zero benchmark lines for it
(it benchmarks nothing at all), refuting "exactly one console line per
serialized artifact". -/
theorem c4_counterexample :
    "./classifier_nnapi_fused_traced.pt" ∈
        artifactsOf (deploy_nnapi trivialOps [] m0 true "classifier" "qnnpack" g0).events ∧
      (printedFor (deploy_nnapi trivialOps [] m0 true "classifier" "qnnpack" g0).events).count
          "./classifier_nnapi_fused_traced.pt" = 0 := by
  decide

theorem buildData_eq (quant_loader : List Batch) :
    ∀ init : List Tensor,
      quant_loader.foldl (fun acc inputs => acc ++ inputs.map (fun f => unsqueeze0 f)) init =
        init ++ quant_loader.flatten.map unsqueeze0 := by
  induction quant_loader with
  | nil => intro init; simp
  | cons batch rest ih => intro init; simp [List.foldl_cons, ih]

theorem nthCall_eq (k : Nat) : ∀ r : ONNXQuantizationDataReader,
    r.nthCall k = r.iterRest.get? k := by
  induction k with
  | zero =>
    intro r
    cases h : r.iterRest <;>
      simp [ONNXQuantizationDataReader.nthCall, ONNXQuantizationDataReader.get_next, h]
  | succ k ih =>
    intro r
    cases h : r.iterRest <;>
      simp [ONNXQuantizationDataReader.nthCall, ONNXQuantizationDataReader.get_next, h, ih]

/-- Claim C6 (confirmed): at construction time the calibration adapter
eagerly materializes exactly one record per individual sample of the
dataloader, in order — its `data` is the flattened sample stream, one
unsqueezed tensor per sample, so `n = Σ batch sizes` records, each with
batch dimension 1 — and the k-th `get_next` call returns the k-th
named-input record, with `none` (the end marker) on every call from the
n-th on, never restarting. -/
theorem c6_calibration_reader :
    ∀ (quant_loader : List Batch) (input_name : String) (k : Nat),
      (ONNXQuantizationDataReader.build quant_loader input_name).data =
        quant_loader.flatten.map unsqueeze0 ∧
      (ONNXQuantizationDataReader.build quant_loader input_name).data.length =
        (quant_loader.map List.length).sum ∧
      (ONNXQuantizationDataReader.build quant_loader input_name).data.map Tensor.shape =
        quant_loader.flatten.map (fun t => 1 :: t.shape) ∧
      (ONNXQuantizationDataReader.build quant_loader input_name).nthCall k =
        ((ONNXQuantizationDataReader.build quant_loader input_name).data.map
          (fun d => (input_name, d))).get? k ∧
      ((quant_loader.map List.length).sum ≤ k →
        (ONNXQuantizationDataReader.build quant_loader input_name).nthCall k = none) := by
  intro quant_loader input_name k
  have hdata : (ONNXQuantizationDataReader.build quant_loader input_name).data =
      quant_loader.flatten.map unsqueeze0 := by
    simpa using buildData_eq quant_loader []
  have hlen : (ONNXQuantizationDataReader.build quant_loader input_name).data.length =
      (quant_loader.map List.length).sum := by
    have hcomp : (List.length ∘ List.map unsqueeze0 : List Tensor → Nat) = List.length := by
      funext l; simp
    simp [hdata, hcomp]
  have hiter : (ONNXQuantizationDataReader.build quant_loader input_name).iterRest =
      (ONNXQuantizationDataReader.build quant_loader input_name).data.map
        (fun d => (input_name, d)) := rfl
  refine ⟨hdata, hlen, ?_, ?_, ?_⟩
  · have hcomp : (Tensor.shape ∘ unsqueeze0) = (fun t => 1 :: t.shape) := by
      funext t; simp [unsqueeze0]
    simp [hdata, List.map_map, hcomp]
  · rw [nthCall_eq, hiter]
  · intro hk
    rw [nthCall_eq, hiter]
    refine List.get?_eq_none.2 ?_
    simpa [hlen] using hk

/-- Claim C6 witness: a reader built over two singleton batches (two samples
in total) signals end-of-data on the third `get_next` call. -/
theorem c6_calibration_reader_witness :
    (ONNXQuantizationDataReader.build
        [[Tensor.mk [3, 224, 224] 0], [Tensor.mk [3, 224, 224] 1]] "input_image").nthCall 2 =
      none :=
  (c6_calibration_reader
      [[Tensor.mk [3, 224, 224] 0], [Tensor.mk [3, 224, 224] 1]] "input_image" 2).2.2.2.2
    (by decide)

theorem benchRun_spec (clock : Nat → ℚ) (rng : Nat) :
    ∀ n : Nat,
      benchRun clock { rng := rng, tick := 0, acc := 0, trace := [] } n =
        { rng := rng + n
          tick := 2 * n
          acc := ∑ i ∈ Finset.range n, (clock (2 * i + 1) - clock (2 * i))
          trace := (List.range n).flatMap (fun i =>
            [BEv.gen (Tensor.mk [1, 3, 224, 224] (rng + i)), BEv.timeRead (2 * i),
             BEv.forwardPass (Tensor.mk [1, 3, 224, 224] (rng + i)),
             BEv.timeRead (2 * i + 1)]) } := by
  intro n
  induction n with
  | zero => simp [benchRun]
  | succ n ih =>
    simp [benchRun, ih, benchIter, torch_rand, BenchState.mk.injEq, Finset.sum_range_succ,
      List.range_succ, Nat.mul_succ]
    exact ⟨by omega, by ring⟩

/-- Claim C7 (confirmed): for every clock oracle, RNG start and
`n_samples ≥ 1`, both benchmark helpers run exactly `n_samples` passes; the
i-th pass draws a fresh random (1, 3, 224, 224) input (a new RNG state per
pass) before the first clock read, runs the forward pass between the two
clock reads (so input generation is outside the measured interval), and the
result is the arithmetic mean of the per-pass elapsed times multiplied by
1000 — with no warm-up pass excluded (pass 0 is averaged like any other).
The ONNX helper behaves identically. -/
theorem c7_benchmark_mean :
    ∀ (clock : Nat → ℚ) (rng : Nat) (n_samples : Nat), 1 ≤ n_samples →
      (benchmark_model clock rng n_samples).1 =
        ((∑ i ∈ Finset.range n_samples, (clock (2 * i + 1) - clock (2 * i))) / n_samples)
          * 1000 ∧
      (benchmark_model clock rng n_samples).2 =
        (List.range n_samples).flatMap (fun i =>
          [BEv.gen (Tensor.mk [1, 3, 224, 224] (rng + i)), BEv.timeRead (2 * i),
           BEv.forwardPass (Tensor.mk [1, 3, 224, 224] (rng + i)),
           BEv.timeRead (2 * i + 1)]) ∧
      benchmark_onnx_model clock rng n_samples = benchmark_model clock rng n_samples := by
  intro clock rng n_samples h
  refine ⟨?_, ?_, rfl⟩
  · simp [benchmark_model, benchRun_spec]
  · simp [benchmark_model, benchRun_spec]

/-- Claim C7 witness: with the identity clock (pass i runs from time 2i to
time 2i+1, one time unit each) and one sample, the reported mean latency is
1000 ms and the trace is the single generate/read/forward/read pass. -/
theorem c7_benchmark_mean_witness :
    (benchmark_model (fun k => (k : ℚ)) 0 1).1 = 1000 ∧
    (benchmark_model (fun k => (k : ℚ)) 0 1).2 =
      [BEv.gen (Tensor.mk [1, 3, 224, 224] 0), BEv.timeRead 0,
       BEv.forwardPass (Tensor.mk [1, 3, 224, 224] 0), BEv.timeRead 1] := by
  have h := c7_benchmark_mean (fun k => (k : ℚ)) 0 1 (by decide)
  refine ⟨?_, ?_⟩
  · rw [h.1]; norm_num
  · rw [h.2.1]; rfl

theorem convBNReLU_shape (cin cout stride b h w : Nat)
    (hs : 1 ≤ stride) (hh : 1 ≤ h) (hw : 1 ≤ w) :
    ConvBNReLU.shapeFn cin cout stride [b, cin, h, w] =
      some [b, cout, (h - 1) / stride + 1, (w - 1) / stride + 1] := by
  have hcond : cin = cin ∧ 1 ≤ stride ∧ 3 ≤ h + 2 * 1 ∧ 3 ≤ w + 2 * 1 :=
    ⟨rfl, hs, by omega, by omega⟩
  simp [ConvBNReLU.shapeFn, conv2dShape, batchNorm2dShape, reluShape, hcond]

theorem optConvBNReLU_shape (cin cout stride b h w : Nat)
    (hs : 1 ≤ stride) (hh : 1 ≤ h) (hw : 1 ≤ w) :
    OptimizedConvBNReLU.shapeFn cin cout stride [b, cin, h, w] =
      some [b, cout, (h - 1) / stride + 1, (w - 1) / stride + 1] := by
  have hcond : cin = cin ∧ 1 ≤ stride ∧ 3 ≤ h + 2 * 1 ∧ 3 ≤ w + 2 * 1 :=
    ⟨rfl, hs, by omega, by omega⟩
  have hcond2 : cin = cin ∧ 1 ≤ 1 ∧ 1 ≤ (h - 1) / stride + 1 + 2 * 0 ∧
      1 ≤ (w - 1) / stride + 1 + 2 * 0 :=
    ⟨rfl, le_refl 1, by simp, by simp⟩
  simp [OptimizedConvBNReLU.shapeFn, conv2dShape, batchNorm2dShape, reluShape, hcond, hcond2]

theorem fold_canonical (bp : List (Nat × Nat × Nat)) :
    ∀ (c b h w : Nat), chainedFromB c bp = true → 1 ≤ h → 1 ≤ w →
      ∃ h2 w2, ((bp.map (fun f => ConvBNReLU.shapeFn f.1 f.2.1 f.2.2)).foldl
          (fun acc f => acc.bind f) (some [b, c, h, w])) =
        some [b, lastOut c bp, h2, w2] ∧ 1 ≤ h2 ∧ 1 ≤ w2 := by
  induction bp with
  | nil => intro c b h w hch hh hw; exact ⟨h, w, rfl, hh, hw⟩
  | cons e rest ih =>
    intro c b h w hch hh hw
    simp only [chainedFromB, Bool.and_eq_true, beq_iff_eq, decide_eq_true_eq] at hch
    obtain ⟨⟨he, hs⟩, hrest⟩ := hch
    subst he
    rw [List.map_cons, List.foldl_cons]
    simp only [Option.some_bind]
    rw [convBNReLU_shape e.1 e.2.1 e.2.2 b h w hs hh hw]
    have hh1 : 1 ≤ (h - 1) / e.2.2 + 1 := Nat.succ_le_succ (Nat.zero_le _)
    have hw1 : 1 ≤ (w - 1) / e.2.2 + 1 := Nat.succ_le_succ (Nat.zero_le _)
    obtain ⟨h2, w2, heq, hh2, hw2⟩ := ih e.2.1 b _ _ hrest hh1 hw1
    exact ⟨h2, w2, heq, hh2, hw2⟩

theorem fold_optimized (bp : List (Nat × Nat × Nat)) :
    ∀ (c b h w : Nat), chainedFromB c bp = true → 1 ≤ h → 1 ≤ w →
      ∃ h2 w2, ((bp.map (fun f => OptimizedConvBNReLU.shapeFn (make_divisible f.1 8)
          (make_divisible f.2.1 8) f.2.2)).foldl
          (fun acc f => acc.bind f) (some [b, make_divisible c 8, h, w])) =
        some [b, make_divisible (lastOut c bp) 8, h2, w2] ∧ 1 ≤ h2 ∧ 1 ≤ w2 := by
  induction bp with
  | nil => intro c b h w hch hh hw; exact ⟨h, w, rfl, hh, hw⟩
  | cons e rest ih =>
    intro c b h w hch hh hw
    simp only [chainedFromB, Bool.and_eq_true, beq_iff_eq, decide_eq_true_eq] at hch
    obtain ⟨⟨he, hs⟩, hrest⟩ := hch
    subst he
    rw [List.map_cons, List.foldl_cons]
    simp only [Option.some_bind]
    rw [optConvBNReLU_shape (make_divisible e.1 8) (make_divisible e.2.1 8) e.2.2 b h w
      hs hh hw]
    have hh1 : 1 ≤ (h - 1) / e.2.2 + 1 := Nat.succ_le_succ (Nat.zero_le _)
    have hw1 : 1 ≤ (w - 1) / e.2.2 + 1 := Nat.succ_le_succ (Nat.zero_le _)
    obtain ⟨h2, w2, heq, hh2, hw2⟩ := ih e.2.1 b _ _ hrest hh1 hw1
    exact ⟨h2, w2, heq, hh2, hw2⟩

/-- Claim C5 (corrected): for every valid non-empty channel schedule
(chained channels, positive strides, first in-channel count 3) and both
block variants, a forward pass on a (batch, 3, 224, 224) input succeeds and
returns a tensor of shape (batch, 1000, 1, 1) — not (batch, 1000): the final
1x1 convolution acts on the pooled 1x1 feature map and nothing flattens the
spatial dimensions afterwards. -/
theorem c5_forward_shape :
    ∀ (bp : List (Nat × Nat × Nat)) (optimized : Bool) (b : Nat),
      bp ≠ [] → chainedFromB 3 bp = true →
      ToyClassifier.forwardShape optimized bp [b, 3, 224, 224] = some [b, 1000, 1, 1] := by
  intro bp optimized b hne hch
  cases optimized with
  | false =>
    obtain ⟨h2, w2, heq, hh2, hw2⟩ := fold_canonical bp 3 b 224 224 hch (by omega) (by omega)
    simp [ToyClassifier.forwardShape, classifierBlockFns, quantStubShape, heq,
      adaptiveAvgPool1Shape, hh2, hw2, conv2dShape, classifierInFeatures]
  | true =>
    match bp, hne with
    | e :: rest, _ =>
      simp only [chainedFromB, Bool.and_eq_true, beq_iff_eq, decide_eq_true_eq] at hch
      obtain ⟨⟨he, hs⟩, hrest⟩ := hch
      obtain ⟨h2, w2, heq, hh2, hw2⟩ :=
        fold_optimized rest e.2.1 b ((224 - 1) / e.2.2 + 1) ((224 - 1) / e.2.2 + 1) hrest
          (Nat.succ_le_succ (Nat.zero_le _)) (Nat.succ_le_succ (Nat.zero_le _))
      simp only [ToyClassifier.forwardShape, classifierBlockFns, quantStubShape,
        if_true, Option.some_bind, List.foldl_cons]
      rw [show
        OptimizedConvBNReLU.shapeFn 3 (make_divisible e.2.1 8) e.2.2 [b, 3, 224, 224] =
          some [b, make_divisible e.2.1 8, (224 - 1) / e.2.2 + 1, (224 - 1) / e.2.2 + 1]
        from optConvBNReLU_shape 3 (make_divisible e.2.1 8) e.2.2 b 224 224 hs
          (by omega) (by omega)]
      rw [heq]
      simp [adaptiveAvgPool1Shape, hh2, hw2, conv2dShape, classifierInFeatures, lastOut]

/-- Claim C5 witness: the theorem applied to the source's fixed schedule for
both variants at batch size 1. -/
theorem c5_forward_shape_witness :
    block_params ≠ [] ∧ chainedFromB 3 block_params = true ∧
    ToyClassifier.forwardShape false block_params [1, 3, 224, 224] = some [1, 1000, 1, 1] ∧
    ToyClassifier.forwardShape true block_params [1, 3, 224, 224] = some [1, 1000, 1, 1] :=
  ⟨by decide, by decide,
    c5_forward_shape block_params false 1 (by decide) (by decide),
    c5_forward_shape block_params true 1 (by decide) (by decide)⟩

/-- Claim C5 counterexample: on the source's own schedule the canonical
classifier's forward pass on a (1, 3, 224, 224) input does not return a
(1, 1000)-shaped tensor (it returns shape (1, 1000, 1, 1)). -/
theorem c5_counterexample :
    ToyClassifier.forwardShape false block_params [1, 3, 224, 224] ≠ some [1, 1000] := by
  decide
